import Mathlib

set_option autoImplicit false

/-!
Verification of the Archelyst market-data orchestrator core against its
natural-language specification.  The Python services under `app/services/`
(rate limiter, provider factory, FMP adapter, orchestrator) are shallowly
embedded as executable Lean functions: Redis sorted sets become lists of
integer scores, `datetime` instants and float durations become rationals,
Python dict/list payloads become an inductive `PyVal`, and every
`try/except` block becomes explicit `Except`/branching control flow.
-/

namespace Archelyst

/-!
## Rate limiter — `app/services/rate_limiter.py`

`RateLimiter.is_allowed` keeps, per `(provider, endpoint)` and per window, a
Redis sorted set whose members are `str(current_time)` with score
`current_time` (seconds).  Because the member of `zadd` is the second-granular
timestamp string, two calls in the same second add the *same* member: the set
is modelled as a list of distinct integer scores and `zadd` is idempotent.
-/

/-- Per-provider budgets of `RateLimiter._get_provider_limits`. -/
structure RateLimits where
  requests_per_minute : Nat
  requests_per_hour : Nat
  requests_per_day : Nat
  burst_limit : Nat
deriving DecidableEq, Repr

/-- `_get_provider_limits()["fmp"]`. -/
def fmpLimits : RateLimits := ⟨300, 5000, 25000, 10⟩

/-- `_get_provider_limits()["yahoo"]`. -/
def yahooLimits : RateLimits := ⟨100, 2000, 10000, 5⟩

/-- `_get_provider_limits()["alpha_vantage"]`. -/
def alphaVantageLimits : RateLimits := ⟨5, 500, 500, 2⟩

/-- `_get_provider_limits()["polygon"]`. -/
def polygonLimits : RateLimits := ⟨200, 10000, 50000, 8⟩

/-- The four sorted sets `rate_limit:p:e:minute|hour|day|burst` for one
`(provider, endpoint)` pair.  Each list holds the distinct member scores. -/
structure WindowSets where
  minute : List Int
  hour : List Int
  day : List Int
  burst : List Int
deriving DecidableEq, Repr

/-- `ZREMRANGEBYSCORE key lo hi`: drop members whose score lies in `[lo, hi]`. -/
def zremrangebyscore (s : List Int) (lo hi : Int) : List Int :=
  s.filter fun x => decide ¬(lo ≤ x ∧ x ≤ hi)

/-- `ZADD key (str(t)) t`: the member is the decimal rendering of `t`, so
adding a score already present leaves the set unchanged. -/
def zaddTimestamp (s : List Int) (t : Int) : List Int :=
  if s.contains t then s else s ++ [t]

/-- One window's pipeline from `is_allowed`: evict scores in
`[0, t - w]`, count (`ZCARD` runs before the `ZADD`), then add `t`. -/
def windowStep (s : List Int) (t w : Int) : Nat × List Int :=
  let pruned := zremrangebyscore s 0 (t - w)
  (pruned.length, zaddTimestamp pruned t)

/-- `RateLimiter.is_allowed` for a known provider at integer second `t`:
check minute, hour, day, then burst; deny as soon as a window's pre-add
count reaches its limit (windows after the denying one stay untouched). -/
def is_allowed (lim : RateLimits) (st : WindowSets) (t : Int) : Bool × WindowSets :=
  let (cm, m) := windowStep st.minute t 60
  if lim.requests_per_minute ≤ cm then (false, { st with minute := m })
  else
    let (ch, h) := windowStep st.hour t 3600
    if lim.requests_per_hour ≤ ch then (false, { st with minute := m, hour := h })
    else
      let (cd, d) := windowStep st.day t 86400
      if lim.requests_per_day ≤ cd then (false, { st with minute := m, hour := h, day := d })
      else
        let (cb, b) := windowStep st.burst t 10
        if lim.burst_limit ≤ cb then (false, ⟨m, h, d, b⟩)
        else (true, ⟨m, h, d, b⟩)

/-- Run a sequence of `is_allowed` calls (timestamps in wall-clock order),
returning the list of admission results. -/
def is_allowed_trace (lim : RateLimits) : WindowSets → List Int → List Bool
  | _, [] => []
  | st, t :: ts =>
    let (b, st') := is_allowed lim st t
    b :: is_allowed_trace lim st' ts

/-!
## Python values

Provider payloads are Python dicts/lists of JSON-ish values.  `PyVal` models
them; dicts are association lists in insertion order.
-/

inductive PyVal where
  | none
  | bool (b : Bool)
  | int (n : Int)
  | float (q : ℚ)
  | str (s : String)
  | list (xs : List PyVal)
  | dict (kvs : List (String × PyVal))

/-- `d.find(k)` on an association list: first value bound to `k`. -/
def dictFind (kvs : List (String × PyVal)) (k : String) : Option PyVal :=
  (kvs.find? fun kv => kv.1 == k).map fun kv => kv.2

/-- `d.get(k, default)`. -/
def dictGetD (kvs : List (String × PyVal)) (k : String) (d : PyVal) : PyVal :=
  (dictFind kvs k).getD d

/-- `k in d` for a dict. -/
def dictHasKey (kvs : List (String × PyVal)) (k : String) : Bool :=
  kvs.any fun kv => kv.1 == k

/-- Python truthiness of a value (`if not data`, `metadata.get(...)` used as
a condition, and so on). -/
def pyTruthy : PyVal → Bool
  | .none => false
  | .bool b => b
  | .int n => !(n == 0)
  | .float q => !(q == 0)
  | .str s => !s.isEmpty
  | .list xs => !xs.isEmpty
  | .dict kvs => !kvs.isEmpty

/-- Does the list of characters `n` occur as a contiguous run at the head
of `h`? -/
def charRunAtHead : List Char → List Char → Bool
  | [], _ => true
  | _ :: _, [] => false
  | a :: as, b :: bs => a == b && charRunAtHead as bs

/-- Does `n` occur as a contiguous run anywhere in `h`? -/
def charRunIn (n : List Char) : List Char → Bool
  | [] => charRunAtHead n []
  | b :: bs => charRunAtHead n (b :: bs) || charRunIn n bs

/-- Python `pat in s` on strings (substring test). -/
def strContains (s pat : String) : Bool :=
  charRunIn pat.toList s.toList

mutual

/-- Whether `needle` occurs in `str(v)`, the Python rendering of `v`.
For needles that contain no quote, bracket, comma or colon characters the
occurrence cannot straddle the punctuation `repr` inserts between atoms, so
the test decomposes structurally over the value. -/
def pyReprContains : PyVal → String → Bool
  | .none, n => strContains "None" n
  | .bool true, n => strContains "True" n
  | .bool false, n => strContains "False" n
  | .int k, n => strContains (toString k) n
  | .float q, n => strContains (toString q) n
  | .str s, n => strContains s n
  | .list xs, n => pyListReprContains xs n
  | .dict kvs, n => pyDictReprContains kvs n

/-- `pyReprContains` over the elements of a list value. -/
def pyListReprContains : List PyVal → String → Bool
  | [], _ => false
  | x :: xs, n => pyReprContains x n || pyListReprContains xs n

/-- `pyReprContains` over the entries of a dict value (keys are rendered
too, so a needle may occur in a key). -/
def pyDictReprContains : List (String × PyVal) → String → Bool
  | [], _ => false
  | kv :: kvs, n => (strContains kv.1 n || pyReprContains kv.2 n) || pyDictReprContains kvs n

end

/-- Python `float(v)`.  JSON numerics coerce exactly; `None` and containers
raise `TypeError`.  (Numeric-string coercion is not modelled; no payload in
this development carries numbers as strings.) -/
def pyFloat : PyVal → Except String ℚ
  | .int n => .ok (n : ℚ)
  | .float q => .ok q
  | .bool b => .ok (if b then 1 else 0)
  | .str s => .error ("ValueError: could not convert string to float: " ++ s)
  | _ => .error "TypeError: float() argument must be a number"

/-- Python `int(v)` on the same domain as `pyFloat` (truncation toward 0). -/
def pyInt : PyVal → Except String Int
  | .int n => .ok n
  | .float q => .ok (if q < 0 then -(Int.floor (-q)) else Int.floor q)
  | .bool b => .ok (if b then 1 else 0)
  | .str s => .error ("ValueError: invalid literal for int: " ++ s)
  | _ => .error "TypeError: int() argument must be a number"

/-- Python `abs(v)` for numeric values. -/
def pyAbs : PyVal → Except String ℚ
  | .int n => .ok |(n : ℚ)|
  | .float q => .ok |q|
  | .bool b => .ok (if b then 1 else 0)
  | _ => .error "TypeError: bad operand type for abs()"

/-- Python `a <= b` for numbers (and strings); mixed or non-ordered
operands raise `TypeError`. -/
def pyLe (a b : PyVal) : Except String Bool :=
  match a, b with
  | .str x, .str y => .ok (decide (x ≤ y))
  | x, y =>
    match pyFloat x, pyFloat y with
    | .ok qx, .ok qy => .ok (decide (qx ≤ qy))
    | _, _ => .error "TypeError: unsupported operand types for comparison"

/-!
## `ProviderResponse` — `app/services/data_providers/base.py`

`ProviderResponse.__init__(self, success, data=None, error=None,
provider=None, timestamp=None, metadata=None)`.  The wall-clock `timestamp`
default is never consulted by any embedded consumer and is omitted from the
structure.
-/

structure ProviderResponse where
  success : Bool
  data : PyVal := .none
  error : Option String := Option.none
  provider : Option String := Option.none
  metadata : List (String × PyVal) := []

/-- The keyword parameters `ProviderResponse.__init__` accepts. -/
def provider_response_init_params : List String :=
  ["success", "data", "error", "provider", "timestamp", "metadata"]

/-- Calling `ProviderResponse(**kwargs)`: an argument name outside the
accepted parameter list raises `TypeError` before the body runs. -/
def providerResponseInitKw (kwargs : List (String × PyVal)) : Except String ProviderResponse :=
  match kwargs.find? (fun kv => !provider_response_init_params.contains kv.1) with
  | some kv => .error ("TypeError: init got an unexpected keyword argument " ++ kv.1)
  | Option.none =>
    .ok { success := pyTruthy (dictGetD kwargs "success" .none)
          data := dictGetD kwargs "data" .none
          error := match dictGetD kwargs "error" .none with
            | .str s => some s
            | _ => Option.none
          provider := match dictGetD kwargs "provider" .none with
            | .str s => some s
            | _ => Option.none
          metadata := match dictGetD kwargs "metadata" .none with
            | .dict kvs => kvs
            | _ => [] }

/-- `ProviderHealth` (only the fields the factory reads). -/
structure ProviderHealth where
  is_healthy : Bool
  response_time : Option ℚ := Option.none
deriving DecidableEq, Repr

/-- `DataProvider.check_health`: probe `get_stock_quote("AAPL")`; healthy
iff the coroutine returned without raising — the returned response's
`success` flag is never consulted. -/
def check_health (quote_call : Except String ProviderResponse) (response_time : ℚ) : ProviderHealth :=
  match quote_call with
  | .ok _ => { is_healthy := true, response_time := some response_time }
  | .error _ => { is_healthy := false }

/-!
## Provider factory — `app/services/data_providers/factory.py`

Wall-clock instants (`datetime.utcnow()`) are rationals measured in seconds;
`ProviderConfig` carries both the static configuration and the runtime state
the factory mutates.
-/

inductive ProviderStatus where
  | healthy
  | degraded
  | unhealthy
  | disabled
  | unknown
deriving DecidableEq, Repr

/-- `ProviderStatus.value`. -/
def ProviderStatus.toValue : ProviderStatus → String
  | .healthy => "healthy"
  | .degraded => "degraded"
  | .unhealthy => "unhealthy"
  | .disabled => "disabled"
  | .unknown => "unknown"

structure ProviderConfig where
  name : String
  priority : Int := 100
  enabled : Bool := true
  max_retries : Nat := 3
  retry_delay : ℚ := 1
  health_check_interval : Nat := 300
  circuit_breaker_threshold : Nat := 5
  circuit_breaker_timeout : Nat := 60
  status : ProviderStatus := .unknown
  last_health_check : Option ℚ := Option.none
  consecutive_failures : Nat := 0
  circuit_breaker_opened_at : Option ℚ := Option.none
  total_requests : Nat := 0
  successful_requests : Nat := 0
  failed_requests : Nat := 0
  average_response_time : ℚ := 0
deriving DecidableEq, Repr

/-- `ProviderConfig.is_circuit_breaker_open` at instant `now`.  The property
both reports the breaker state and, when the timeout has elapsed, resets
`circuit_breaker_opened_at` and zeroes `consecutive_failures`; the pair
returns (reported value, config after the read). -/
def ProviderConfig.is_circuit_breaker_open (c : ProviderConfig) (now : ℚ) :
    Bool × ProviderConfig :=
  match c.circuit_breaker_opened_at with
  | Option.none => (false, c)
  | some t0 =>
    if (c.circuit_breaker_timeout : ℚ) ≤ now - t0 then
      (false, { c with circuit_breaker_opened_at := Option.none, consecutive_failures := 0 })
    else
      (true, c)

/-- `ProviderConfig.success_rate` (percentage). -/
def ProviderConfig.success_rate (c : ProviderConfig) : ℚ :=
  if c.total_requests = 0 then 100
  else ((c.successful_requests : ℚ) / (c.total_requests : ℚ)) * 100

/-- `ProviderConfig.record_success(response_time)`: bump counters, zero the
failure streak, and fold the response time into the EMA with alpha = 0.1. -/
def ProviderConfig.record_success (c : ProviderConfig) (response_time : Option ℚ) :
    ProviderConfig :=
  let c := { c with
    total_requests := c.total_requests + 1
    successful_requests := c.successful_requests + 1
    consecutive_failures := 0 }
  match response_time with
  | some rt =>
    { c with average_response_time := 0.1 * rt + (1 - 0.1) * c.average_response_time }
  | Option.none => c

/-- `ProviderConfig.record_failure()` at instant `now`: bump counters and
the failure streak; when the streak reaches the threshold and the breaker
is not already open, record the opening instant. -/
def ProviderConfig.record_failure (c : ProviderConfig) (now : ℚ) : ProviderConfig :=
  let c := { c with
    total_requests := c.total_requests + 1
    failed_requests := c.failed_requests + 1
    consecutive_failures := c.consecutive_failures + 1 }
  if c.circuit_breaker_threshold ≤ c.consecutive_failures ∧
      c.circuit_breaker_opened_at = Option.none then
    { c with circuit_breaker_opened_at := some now }
  else
    c

/-- The factory's provider bookkeeping: configs in registration order, the
names having initialized adapter instances, and the global counters. -/
structure FactoryState where
  provider_configs : List (String × ProviderConfig)
  provider_instances : List String
  request_count : Nat := 0
  failover_count : Nat := 0
  last_used_provider : Option String := Option.none

/-- One config's step of `_get_available_providers`: the `and` chain
short-circuits, so the breaker property (and its reset side effect) is
evaluated only when the config is enabled with an eligible status. -/
def availableStep (instances : List String) (now : ℚ) (p : String × ProviderConfig) :
    Bool × (String × ProviderConfig) :=
  if p.2.enabled ∧ (p.2.status = .healthy ∨ p.2.status = .degraded) then
    let (b, c) := p.2.is_circuit_breaker_open now
    ((!b && instances.contains p.1), (p.1, c))
  else
    (false, p)

/-- `DataProviderFactory._get_available_providers` at instant `now`:
the names passing every check, and the factory state after the sweep's
breaker reads. -/
def get_available_providers (st : FactoryState) (now : ℚ) : List String × FactoryState :=
  let stepped := st.provider_configs.map (availableStep st.provider_instances now)
  (stepped.filterMap (fun bp => if bp.1 then some bp.2.1 else Option.none),
   { st with provider_configs := stepped.map fun bp => bp.2 })

/-- `self._provider_configs[name].priority` (the name always comes from the
available list, so the lookup cannot miss; the default is dead). -/
def configPriority (st : FactoryState) (name : String) : Int :=
  ((st.provider_configs.find? fun p => p.1 == name).map fun p => p.2.priority).getD 100

/-- First element of the available list minimizing `priority` — the head of
Python's stable `sorted(available, key=priority)`. -/
def pickMinPriority (st : FactoryState) (a : String) (rest : List String) : String :=
  rest.foldl (fun best n => if configPriority st n < configPriority st best then n else best) a

/-- `DataProviderFactory._select_provider_by_priority`. -/
def select_provider_by_priority (st : FactoryState) (now : ℚ) : Option String × FactoryState :=
  let (avail, st) := get_available_providers st now
  match avail with
  | [] => (Option.none, st)
  | a :: rest => (some (pickMinPriority st a rest), st)

/-- Apply `f` to the named provider's config. -/
def updateConfig (st : FactoryState) (name : String) (f : ProviderConfig → ProviderConfig) :
    FactoryState :=
  { st with provider_configs :=
      st.provider_configs.map fun p => if p.1 == name then (p.1, f p.2) else p }

/-- What one `await asyncio.wait_for(method(*args), timeout)` call did:
returned a response (with its wall-clock duration), timed out, raised
`DataProviderRateLimitError`, or raised some other exception. -/
inductive AttemptOutcome where
  | ok (resp : ProviderResponse) (response_time : ℚ)
  | timeout
  | rateLimited (msg : String)
  | exc (msg : String)

structure FailoverResult where
  result : Except String ProviderResponse
  state : FactoryState
  invoked : List String

/-- The epilogue of `get_with_failover`: re-raise the last captured
exception, or the generic all-providers-failed error. -/
def gwf_finish (max_retries : Nat) (lastExc : Option String) (st : FactoryState)
    (log : List String) : FailoverResult :=
  { result := .error (lastExc.getD
      ("All providers failed after " ++ toString max_retries ++ " attempts"))
    state := st
    invoked := log }

/-- The body of `get_with_failover`'s `for attempt in range(max_retries)`
loop.  `sel` is the strategy dispatched by `select_provider` (pure for the
priority and health strategies); `invoke` gives each provider's outcome
(each provider is invoked at most once, by the `attempted` check); `fuel`
is the number of attempts remaining, so the failover counter bumps exactly
when `attempt < max_retries - 1`, i.e. when `1 < fuel`. -/
def gwf_loop (sel : FactoryState → ℚ → Option String × FactoryState)
    (invoke : String → AttemptOutcome) (now : ℚ) (max_retries : Nat) :
    Nat → List String → Option String → FactoryState → List String → FailoverResult
  | 0, _, lastExc, st, log => gwf_finish max_retries lastExc st log
  | fuel + 1, attempted, lastExc, st, log =>
    let (selOpt, st1) := sel st now
    match selOpt with
    | Option.none =>
      { result := .error "No available providers for request", state := st1, invoked := log }
    | some selName =>
      let picked : Option (String × FactoryState) :=
        if attempted.contains selName then
          let (avail, st2) := get_available_providers st1 now
          match avail.filter (fun n => !attempted.contains n) with
          | [] => Option.none
          | q :: _ => some (q, st2)
        else
          some (selName, st1)
      match picked with
      | Option.none => gwf_finish max_retries lastExc st1 log
      | some (p, st2) =>
        if !st2.provider_instances.contains p then
          -- `self._provider_instances[provider_name]` would raise KeyError;
          -- unreachable because availability requires an instance.
          { result := .error ("KeyError: " ++ p), state := st2, invoked := log }
        else
          match invoke p with
          | .ok r rt =>
            let st3 := updateConfig st2 p fun c => c.record_success (some rt)
            { result := .ok r
              state := { st3 with
                request_count := st3.request_count + 1
                last_used_provider := some p }
              invoked := log ++ [p] }
          | .timeout =>
            let st3 := updateConfig st2 p fun c => c.record_failure now
            let st4 := if 1 < fuel + 1 then { st3 with failover_count := st3.failover_count + 1 } else st3
            gwf_loop sel invoke now max_retries fuel (attempted ++ [p])
              (some ("Request timeout for provider " ++ p)) st4 (log ++ [p])
          | .rateLimited m =>
            let st4 := if 1 < fuel + 1 then { st2 with failover_count := st2.failover_count + 1 } else st2
            gwf_loop sel invoke now max_retries fuel (attempted ++ [p]) (some m) st4 (log ++ [p])
          | .exc m =>
            let st3 := updateConfig st2 p fun c => c.record_failure now
            let st4 := if 1 < fuel + 1 then { st3 with failover_count := st3.failover_count + 1 } else st3
            gwf_loop sel invoke now max_retries fuel (attempted ++ [p]) (some m) st4 (log ++ [p])

/-- `DataProviderFactory.get_with_failover`.  `max_retries or 3` treats an
explicit 0 as falsy. -/
def get_with_failover (sel : FactoryState → ℚ → Option String × FactoryState)
    (invoke : String → AttemptOutcome) (now : ℚ) (max_retries_arg : Option Nat)
    (st : FactoryState) : FailoverResult :=
  let mr := match max_retries_arg with
    | Option.none => 3
    | some 0 => 3
    | some k => k
  gwf_loop sel invoke now mr mr [] Option.none st []

/-- `DataProviderFactory._health_check_provider`: flip the config's status
according to the probe and stamp the check time (the probe itself,
`check_health`, never raises). -/
def health_check_provider_update (h : ProviderHealth) (now : ℚ) (c : ProviderConfig) :
    ProviderConfig :=
  if h.is_healthy then
    { c with status := .healthy, last_health_check := some now }
  else
    { c with status := .unhealthy, last_health_check := some now }

/-!
## FMP adapter — `app/services/data_providers/fmp.py`

`_make_request` is driven by an environment recording what the rate
limiter answered, what the cache read returned, and what each successive
HTTP attempt did.  The adapter's `_max_retries = 3` and `_backoff_base = 2`.
-/

/-- What the `session.get` of one attempt produced. -/
inductive HTTPAttempt where
  | ok (body : PyVal)
  | badJson
  | rateLimited (retry_after : Option Int)
  | authFailed
  | otherStatus
  | clientError
  | otherExc

/-- The ambient world of one `_make_request` call. -/
structure RequestEnv where
  rate_allowed : Bool
  cached : Option PyVal
  attempts : Nat → HTTPAttempt

/-- Observable outcome of `_make_request`: the returned data or the raised
exception, plus how many HTTP requests went out, which sleeps were taken,
and which values were written to the cache. -/
structure MakeRequestResult where
  result : Except String PyVal
  http_attempts : Nat
  sleeps : List ℚ
  cache_writes : List PyVal

def fmp_max_retries : Nat := 3

def fmp_backoff_base : ℚ := 2

/-- `FMPProvider._is_valid_response`. -/
def fmp_is_valid_response (data : PyVal) (endpoint : String) : Bool :=
  if !pyTruthy data then false
  else
    let errFlag :=
      match data with
      | .dict kvs =>
        (dictHasKey kvs "Error Message" || dictHasKey kvs "error") ||
          (dictHasKey kvs "Note" &&
            pyReprContains (dictGetD kvs "Note" (.str "")) "API call frequency")
      | _ => false
    if errFlag then false
    else if strContains endpoint "quote" then
      match data with | .list xs => !xs.isEmpty | _ => false
    else if strContains endpoint "profile" then
      match data with | .list xs => !xs.isEmpty | _ => false
    else if strContains endpoint "search" then
      match data with | .list _ => true | _ => false
    else if strContains endpoint "historical" then
      match data with | .dict kvs => dictHasKey kvs "historical" | _ => false
    else true

/-- `FMPProvider._handle_rate_limit_response`: sleep
`min(int(Retry-After or 60), 300)` (`none` covers both a missing header and
an unparseable one). -/
def fmp_rate_limit_sleep (retry_after : Option Int) : ℚ :=
  min ((retry_after.getD 60 : Int) : ℚ) 300

/-- The retry loop of `_make_request`, from attempt index `attempt` with
`fuel` attempts remaining.  Every arm of the `try` that does not return
falls through to the shared backoff-and-retry tail — including the HTTP 401
arm, whose `raise Exception(...)` is caught by the enclosing generic
`except Exception` handler. -/
def fmp_attempt_loop (env : RequestEnv) (endpoint : String) :
    Nat → Nat → MakeRequestResult
  | _, 0 =>
    { result := .error
        ("FMP API request failed after " ++ toString (fmp_max_retries + 1) ++ " attempts")
      http_attempts := 0, sleeps := [], cache_writes := [] }
  | attempt, fuel + 1 =>
    let cont : List ℚ → MakeRequestResult := fun extraSleeps =>
      if attempt < fmp_max_retries then
        let backoff := fmp_backoff_base ^ attempt
        let rest := fmp_attempt_loop env endpoint (attempt + 1) fuel
        { result := rest.result
          http_attempts := rest.http_attempts + 1
          sleeps := extraSleeps ++ backoff :: rest.sleeps
          cache_writes := rest.cache_writes }
      else
        { result := .error
            ("FMP API request failed after " ++ toString (fmp_max_retries + 1) ++ " attempts")
          http_attempts := 1, sleeps := extraSleeps, cache_writes := [] }
    match env.attempts attempt with
    | .ok body =>
      if fmp_is_valid_response body endpoint then
        { result := .ok body, http_attempts := 1, sleeps := [], cache_writes := [body] }
      else
        cont []
    | .badJson => cont []
    | .rateLimited h => cont [fmp_rate_limit_sleep h]
    | .authFailed => cont []
    | .otherStatus => cont []
    | .clientError => cont []
    | .otherExc => cont []

/-- `FMPProvider._make_request`: deny fast when the internal rate limiter
refuses; answer from the cache when the read hits (the cache read precedes
any HTTP traffic); otherwise run the retry loop. -/
def fmp_make_request (env : RequestEnv) (endpoint : String) : MakeRequestResult :=
  if !env.rate_allowed then
    { result := .error "Rate limit exceeded for FMP"
      http_attempts := 0, sleeps := [], cache_writes := [] }
  else
    match env.cached with
    | some d =>
      { result := .ok d, http_attempts := 0, sleeps := [], cache_writes := [] }
    | Option.none => fmp_attempt_loop env endpoint 0 (fmp_max_retries + 1)

/-- `FMPProvider._standardize_quote_data` on `raw_data`.  A non-empty dict
passes the truthiness guard but `raw_data[0]` then raises; a non-dict first
element makes `quote.get` raise. -/
def fmp_standardize_quote_data (nowIso : String) (v : PyVal) : Except String PyVal :=
  if !pyTruthy v then .ok (.dict [])
  else
    match v with
    | .list [] => .ok (.dict [])
    | .list (q :: _) =>
      match q with
      | .dict kvs => do
        let price ← pyFloat (dictGetD kvs "price" (.int 0))
        let change ← pyFloat (dictGetD kvs "change" (.int 0))
        let changePct ← pyFloat (dictGetD kvs "changesPercentage" (.int 0))
        let prevClose ← pyFloat (dictGetD kvs "previousClose" (.int 0))
        let openPrice ← pyFloat (dictGetD kvs "open" (.int 0))
        let high ← pyFloat (dictGetD kvs "dayHigh" (.int 0))
        let low ← pyFloat (dictGetD kvs "dayLow" (.int 0))
        let volume ← pyInt (dictGetD kvs "volume" (.int 0))
        .ok (.dict
          [("symbol", dictGetD kvs "symbol" (.str "")),
           ("name", dictGetD kvs "name" (.str "")),
           ("price", .float price),
           ("change", .float change),
           ("change_percent", .float changePct),
           ("previous_close", .float prevClose),
           ("open", .float openPrice),
           ("high", .float high),
           ("low", .float low),
           ("volume", .int volume),
           ("market_cap", dictGetD kvs "marketCap" .none),
           ("pe_ratio", dictGetD kvs "pe" .none),
           ("timestamp", dictGetD kvs "timestamp" .none),
           ("provider", .str "fmp"),
           ("last_updated", .str nowIso)])
      | _ => .error "AttributeError: object has no attribute get"
    | .dict _ => .error "KeyError: 0"
    | _ => .error "TypeError: object is not subscriptable"

/-- Failure response every FMP endpoint handler returns from its
`except Exception` arm. -/
def fmpFailureResp (e : String) : ProviderResponse :=
  { success := false, data := .dict [], error := some e,
    provider := some "fmp", metadata := [("cached", .bool false)] }

/-- `FMPProvider.get_stock_quote`: the whole body sits in a
`try/except Exception` that converts any raise into a failure response, and
the success response always carries `metadata = ("cached": False)` — also
when `_make_request` answered from the cache. -/
def fmp_get_stock_quote (env : RequestEnv) (nowIso : String) : ProviderResponse :=
  match (fmp_make_request env "/quote").result with
  | .error e => fmpFailureResp e
  | .ok data =>
    match fmp_standardize_quote_data nowIso data with
    | .error e => fmpFailureResp e
    | .ok sd =>
      { success := true, data := sd, error := Option.none,
        provider := some "fmp", metadata := [("cached", .bool false)] }

/-- One bar of `get_historical_data`'s standardization loop. -/
def fmp_standardize_hist_item (item : PyVal) : Except String PyVal :=
  match item with
  | .dict kvs => do
    let o ← pyFloat (dictGetD kvs "open" (.int 0))
    let h ← pyFloat (dictGetD kvs "high" (.int 0))
    let l ← pyFloat (dictGetD kvs "low" (.int 0))
    let c ← pyFloat (dictGetD kvs "close" (.int 0))
    let vol ← pyInt (dictGetD kvs "volume" (.int 0))
    .ok (.dict
      [("date", dictGetD kvs "date" .none),
       ("open", .float o),
       ("high", .float h),
       ("low", .float l),
       ("close", .float c),
       ("volume", .int vol)])
  | _ => .error "AttributeError: object has no attribute get"

/-- `FMPProvider.get_historical_data`: takes `data["historical"][:100]` in
the order the provider sent it — no sort — and wraps it; bars only exist
when `"historical" in data`. -/
def fmp_get_historical_data (env : RequestEnv) (nowIso symbol period interval : String) :
    ProviderResponse :=
  match (fmp_make_request env "/historical-price-full").result with
  | .error e => fmpFailureResp e
  | .ok data =>
    let bars : Except String (List PyVal) :=
      match data with
      | .dict kvs =>
        match dictFind kvs "historical" with
        | some (.list items) => (items.take 100).mapM fmp_standardize_hist_item
        | some _ => .error "TypeError: value is not subscriptable"
        | Option.none => .ok []
      | _ => .ok []
    match bars with
    | .error e => fmpFailureResp e
    | .ok pts =>
      { success := true
        data := .dict
          [("symbol", .str symbol),
           ("period", .str period),
           ("interval", .str interval),
           ("data", .list pts),
           ("provider", .str "fmp"),
           ("last_updated", .str nowIso)]
        error := Option.none
        provider := some "fmp"
        metadata := [("cached", .bool false)] }

/-- The classification loop of `get_market_overview`: standardize each item
and route it by symbol (a non-dict item makes `item.get` raise; a non-str
symbol makes `.endswith` raise). -/
def fmp_overview_classify (nowIso : String) :
    List PyVal → Except String (List PyVal × List PyVal)
  | [] => .ok ([], [])
  | item :: rest =>
    match item with
    | .dict kvs => do
      let si ← fmp_standardize_quote_data nowIso (.list [item])
      let (inds, cr) ← fmp_overview_classify nowIso rest
      match dictGetD kvs "symbol" (.str "") with
      | .str s =>
        if s = "SPY" ∨ s = "QQQ" ∨ s = "DIA" then .ok (si :: inds, cr)
        else if s.endsWith "-USD" then .ok (inds, si :: cr)
        else .ok (inds, cr)
      | _ => .error "AttributeError: object has no attribute endswith"
    | _ => .error "AttributeError: object has no attribute get"

/-- `FMPProvider.get_market_overview`.  The success path constructs
`ProviderResponse(success=True, ..., cached=False, error=None)`; the
`cached` keyword is not an `__init__` parameter, so the construction raises
`TypeError`, which the surrounding handler converts into the failure
response. -/
def fmp_get_market_overview (env : RequestEnv) (nowIso : String) : ProviderResponse :=
  match (fmp_make_request env "/quote/SPY,QQQ,DIA,BTC-USD,ETH-USD").result with
  | .error e => fmpFailureResp e
  | .ok data =>
    let built : Except String ProviderResponse := do
      let items ←
        match data with
        | .list xs => Except.ok xs
        | .dict kvs => Except.ok (kvs.map fun kv => PyVal.str kv.1)
        | .str s => Except.ok (s.toList.map fun c => PyVal.str (String.singleton c))
        | _ => Except.error "TypeError: object is not iterable"
      let (inds, cr) ← fmp_overview_classify nowIso items
      let overview := PyVal.dict
        [("indices", .list inds),
         ("crypto", .list cr),
         ("last_updated", .str nowIso),
         ("provider", .str "fmp")]
      providerResponseInitKw
        [("success", .bool true),
         ("data", overview),
         ("provider", .str "fmp"),
         ("timestamp", .str nowIso),
         ("cached", .bool false),
         ("error", PyVal.none)]
    match built with
    | .ok r => r
    | .error e => fmpFailureResp e

/-!
## Orchestrator — `app/services/market_data.py`

`MarketDataService` computes quality metrics, anomaly flags and provenance
around the factory call.  Python `in`/indexing on arbitrary payloads and
numeric coercions are fallible, so the helpers return `Except`; the
orchestrator's `try/except Exception` turns every raise into a failure
envelope.
-/

inductive DataQuality where
  | excellent
  | good
  | fair
  | poor
  | unreliable
deriving DecidableEq, Repr

structure DataQualityMetrics where
  completeness_score : ℚ
  freshness_score : ℚ
  accuracy_score : ℚ
  consistency_score : ℚ
  overall_score : ℚ
  quality_level : DataQuality
deriving DecidableEq, Repr

/-- `self.quality_thresholds` sorted by threshold descending — the order
the level-determination loop walks. -/
def quality_thresholds_desc : List (DataQuality × ℚ) :=
  [(.excellent, 95), (.good, 85), (.fair, 70), (.poor, 50), (.unreliable, 0)]

/-- The level loop: first level (walking thresholds descending) whose
threshold the overall score meets, defaulting to `unreliable`. -/
def quality_level_of (overall : ℚ) : DataQuality :=
  ((quality_thresholds_desc.find? fun p => decide (p.2 ≤ overall)).map fun p => p.1).getD
    .unreliable

/-- Python `k in v` for the payload checks of the quality/anomaly code. -/
def keyInPy (v : PyVal) (k : String) : Bool :=
  match v with
  | .dict kvs => dictHasKey kvs k
  | .list xs => xs.any fun x => match x with | .str s => s == k | _ => false
  | .str s => strContains s k
  | _ => false

/-- Python `v[k]` with a string key. -/
def pyIndexStr (v : PyVal) (k : String) : Except String PyVal :=
  match v with
  | .dict kvs =>
    match dictFind kvs k with
    | some x => .ok x
    | Option.none => .error ("KeyError: " ++ k)
  | _ => .error "TypeError: indices must be integers"

/-- `field in data and data[field] is not None`. -/
def field_present (data : PyVal) (f : String) : Except String Bool :=
  if keyInPy data f then do
    let v ← pyIndexStr data f
    match v with
    | PyVal.none => return false
    | _ => return true
  else
    return false

/-- The provider accuracy baselines of `_calculate_data_quality`
(`provider_scores.get(provider, 80.0)`). -/
def provider_scores_get (p : Option String) : ℚ :=
  match p with
  | some "fmp" => 95
  | some "yahoo" => 85
  | some "alpha_vantage" => 90
  | _ => 80

/-- `sum(1 for field in required_fields if field in data and data[field] is
not None)` of `_calculate_data_quality`. -/
def count_present_required (data : PyVal) (required : List String) : Except String Nat :=
  required.foldlM
    (fun acc f => do
      let b ← field_present data f
      return acc + if b then 1 else 0) 0

/-- `MarketDataService._calculate_data_quality`.  The required-field set
depends on whether the *rendering* of the whole payload contains the
substring "price"; the overall score is the plain weighted sum — no
rounding is applied. -/
def calculate_data_quality (data : PyVal) (provider : Option String)
    (request_time : ℚ) (cache_hit : Bool) : Except String DataQualityMetrics := do
  let required := if pyReprContains data "price" then ["symbol", "price"] else ["symbol"]
  let present ← count_present_required data required
  let completeness : ℚ :=
    if required.length = 0 then 100 else ((present : ℚ) / (required.length : ℚ)) * 100
  let freshness : ℚ := if !cache_hit then 100 else max 50 (100 - request_time * 10)
  let accuracy := provider_scores_get provider
  let consistency : ℚ := 90
  let overall := completeness * 0.3 + freshness * 0.25 + accuracy * 0.25 + consistency * 0.2
  return { completeness_score := completeness
           freshness_score := freshness
           accuracy_score := accuracy
           consistency_score := consistency
           overall_score := overall
           quality_level := quality_level_of overall }

structure AnomalyDetection where
  has_anomalies : Bool
  anomaly_types : List String
  confidence_score : ℚ
  details : List (String × PyVal)

def price_change_threshold : ℚ := 20

def volume_spike_threshold : ℚ := 5

/-- `item.get("volume", 0)` inside the volume-spike comprehension; a
non-dict item raises `AttributeError`, which the surrounding
`except (TypeError, ZeroDivisionError)` does *not* catch. -/
def volumeGet (item : PyVal) : Except String PyVal :=
  match item with
  | .dict kvs => .ok (dictGetD kvs "volume" (.int 0))
  | _ => .error "AttributeError: object has no attribute get"

/-- The volume-spike block of `_detect_anomalies` over the last 30 bars.
`TypeError`/`ZeroDivisionError` arising inside it are caught and the block
is skipped — except that a zero average volume raises only *after* the
anomaly name was appended, leaving a flag with no confidence entry. -/
def detect_volume_spike (current : PyVal) (hist : List PyVal) :
    Except String (List String × List ℚ × List (String × PyVal)) := do
  let vols ← (hist.drop (hist.length - 30)).mapM volumeGet
  if vols.isEmpty then return ([], [], [])
  match vols.mapM pyFloat with
  | .error _ => return ([], [], [])
  | .ok nums =>
    let avg := nums.sum / (nums.length : ℚ)
    match pyFloat current with
    | .error _ => return ([], [], [])
    | .ok cur =>
      if avg * volume_spike_threshold < cur then
        if avg = 0 then
          return (["volume_spike"], [], [])
        else
          return (["volume_spike"],
            [min 100 (cur / avg / volume_spike_threshold * 50)],
            [("volume_spike", .dict
              [("current_volume", current),
               ("average_volume", .float avg),
               ("spike_ratio", .float (cur / avg))])])
      else
        return ([], [], [])

/-- One chained comparison `a <= b <= c` (the second comparison is not
evaluated when the first is false). -/
def pyChainLe3 (a b c : PyVal) : Except String Bool := do
  let x ← pyLe a b
  if x then pyLe b c else return false

/-- `MarketDataService._detect_anomalies` (the service always constructs
itself with `anomaly_detection_enabled = True`, threshold 20, multiplier
5). -/
def detect_anomalies (enabled : Bool) (data : PyVal) (historical_data : Option (List PyVal)) :
    Except String AnomalyDetection := do
  if !enabled then
    return { has_anomalies := false, anomaly_types := [], confidence_score := 0, details := [] }
  let priceBlock ←
    if keyInPy data "change_percent" then do
      let raw ← pyIndexStr data "change_percent"
      let cp ← pyAbs raw
      if price_change_threshold < cp then
        pure (["extreme_price_change"],
          [min 100 (cp / price_change_threshold * 50)],
          [("extreme_price_change", PyVal.dict
            [("change_percent", raw),
             ("threshold", .float price_change_threshold)])])
      else pure (([], [], []) : List String × List ℚ × List (String × PyVal))
    else pure (([], [], []) : List String × List ℚ × List (String × PyVal))
  let volBlock ←
    match historical_data with
    | some hist =>
      if keyInPy data "volume" ∧ !hist.isEmpty then
        -- `data["volume"]` on a non-dict payload raises TypeError, which the
        -- block's `except (TypeError, ZeroDivisionError)` swallows.
        match pyIndexStr data "volume" with
        | .error _ => pure (([], [], []) : List String × List ℚ × List (String × PyVal))
        | .ok cur => detect_volume_spike cur hist
      else pure (([], [], []) : List String × List ℚ × List (String × PyVal))
    | Option.none => pure (([], [], []) : List String × List ℚ × List (String × PyVal))
  let consBlock ←
    if keyInPy data "price" ∧ keyInPy data "open" ∧ keyInPy data "high" ∧
        keyInPy data "low" then do
      let price ← pyIndexStr data "price"
      let openPrice ← pyIndexStr data "open"
      let high ← pyIndexStr data "high"
      let low ← pyIndexStr data "low"
      let c1 ← pyChainLe3 low price high
      let cond ← if c1 then pyChainLe3 low openPrice high else pure false
      if !cond then
        pure (["price_inconsistency"], ([90] : List ℚ),
          [("price_inconsistency", PyVal.dict
            [("price", price), ("open", openPrice), ("high", high), ("low", low)])])
      else pure (([], [], []) : List String × List ℚ × List (String × PyVal))
    else pure (([], [], []) : List String × List ℚ × List (String × PyVal))
  let anomalies := priceBlock.1 ++ volBlock.1 ++ consBlock.1
  let confs := priceBlock.2.1 ++ volBlock.2.1 ++ consBlock.2.1
  let details := priceBlock.2.2 ++ volBlock.2.2 ++ consBlock.2.2
  let overall : ℚ := if confs.isEmpty then 0 else confs.sum / (confs.length : ℚ)
  return { has_anomalies := !anomalies.isEmpty
           anomaly_types := anomalies
           confidence_score := overall
           details := details }

inductive DataSource where
  | fmp
  | yahoo
  | alpha_vantage
  | polygon
  | aggregated
deriving DecidableEq, Repr

/-- `DataSource(s)` as a partial lookup (`ValueError` becomes `none`). -/
def dataSourceOf? (s : String) : Option DataSource :=
  if s = "fmp" then some .fmp
  else if s = "yahoo" then some .yahoo
  else if s = "alpha_vantage" then some .alpha_vantage
  else if s = "polygon" then some .polygon
  else if s = "aggregated" then some .aggregated
  else Option.none

structure DataProvenance where
  primary_source : DataSource
  fallback_sources : List DataSource
  processing_time_ms : ℚ
  cache_hit : Bool
  cache_age_seconds : Option ℚ
  provider_health : List (String × String)
deriving DecidableEq, Repr

/-- `MarketDataService._create_data_provenance`.  A provider name outside
the `DataSource` enum (including the orchestrator's literal "unknown", and
`None`) falls back to `DataSource.YAHOO`; one bad fallback name empties the
whole fallback list.  `provider_health` snapshots each config's status. -/
def create_data_provenance (configs : List (String × ProviderConfig))
    (provider : Option String) (processing_time : ℚ) (cache_hit : Bool)
    (cache_age : Option ℚ) (fallback_sources : List String) : DataProvenance :=
  let primary :=
    match provider with
    | some s => (dataSourceOf? s).getD .yahoo
    | Option.none => .yahoo
  let fallbacks :=
    if fallback_sources.all (fun s => (dataSourceOf? s).isSome) then
      fallback_sources.filterMap dataSourceOf?
    else
      []
  { primary_source := primary
    fallback_sources := fallbacks
    processing_time_ms := processing_time * 1000
    cache_hit := cache_hit
    cache_age_seconds := cache_age
    provider_health := configs.map fun p => (p.1, p.2.status.toValue) }

/-- The orchestrator's response envelope (`QuoteResponse` of
`app/schemas/market_data.py`; `anomaly_detection` and `error` are optional
with default `None`). -/
structure QuoteResponse where
  success : Bool
  symbol : String
  data : Option PyVal
  data_quality : DataQualityMetrics
  anomaly_detection : Option AnomalyDetection
  provenance : DataProvenance
  error : Option String

/-- The zeroed metrics every failure envelope carries. -/
def zeroed_quality : DataQualityMetrics :=
  { completeness_score := 0, freshness_score := 0, accuracy_score := 0,
    consistency_score := 0, overall_score := 0, quality_level := .unreliable }

/-- The failure envelope of `get_quote` (both the unsuccessful-response
branch and the `except Exception` branch build it, with provider
"unknown"). -/
def quote_failure_envelope (configs : List (String × ProviderConfig)) (symbol : String)
    (processing_time : ℚ) (e : Option String) : QuoteResponse :=
  { success := false
    symbol := symbol
    data := Option.none
    data_quality := zeroed_quality
    anomaly_detection := Option.none
    provenance := create_data_provenance configs (some "unknown") processing_time false
      Option.none []
    error := e }

/-- `MarketDataService.get_quote`.  The crypto/stock dispatch only picks
which factory coroutine runs; `factory_result` abstracts that call
(`Except.error` = the call raised).  `conv` abstracts the pydantic
`QuoteData(**data)` construction; `processing_time` is the wall time
measured after the factory call and `processing_time_exc` the one measured
in the `except` handler.  Every raise inside the `try` lands in the failure
envelope — the function is total. -/
def ms_get_quote (configs : List (String × ProviderConfig))
    (conv : PyVal → Except String PyVal) (symbol : String)
    (factory_result : Except String ProviderResponse)
    (processing_time processing_time_exc : ℚ) : QuoteResponse :=
  match factory_result with
  | .error e => quote_failure_envelope configs symbol processing_time_exc (some e)
  | .ok pr =>
    if pr.success then
      let cache_hit := pyTruthy (dictGetD pr.metadata "cached" (.bool false))
      match calculate_data_quality pr.data pr.provider processing_time cache_hit with
      | .error e => quote_failure_envelope configs symbol processing_time_exc (some e)
      | .ok dq =>
        match detect_anomalies true pr.data Option.none with
        | .error e => quote_failure_envelope configs symbol processing_time_exc (some e)
        | .ok anom =>
          let prov := create_data_provenance configs pr.provider processing_time cache_hit
            Option.none []
          match conv pr.data with
          | .error e => quote_failure_envelope configs symbol processing_time_exc (some e)
          | .ok qd =>
            { success := true
              symbol := symbol
              data := some qd
              data_quality := dq
              anomaly_detection := some anom
              provenance := prov
              error := Option.none }
    else
      { success := false
        symbol := symbol
        data := Option.none
        data_quality := zeroed_quality
        anomaly_detection := Option.none
        provenance := create_data_provenance configs (some "unknown") processing_time false
          Option.none []
        error := pr.error }

/-- Python `round(x, 6)` over exact rationals (the counterexamples below
avoid ties, where the half-to-even convention would matter). -/
def roundTo6 (x : ℚ) : ℚ :=
  ((round (x * 1000000) : ℤ) : ℚ) / 1000000

/-- Modelled from the spec: "the declared quality_level is the highest
level whose threshold (excellent=95, good=85, fair=70, poor=50,
unreliable=0) is less than or equal to overall_score" — stated for
comparison with the code's level loop. -/
def spec_quality_level (overall : ℚ) : DataQuality :=
  if 95 ≤ overall then .excellent
  else if 85 ≤ overall then .good
  else if 70 ≤ overall then .fair
  else if 50 ≤ overall then .poor
  else .unreliable

/-!
## Observation helpers for the theorems below
-/

/-- The error message of a raised `_make_request`, if it raised. -/
def resultErrorMsg (r : Except String PyVal) : Option String :=
  match r with
  | .error e => some e
  | .ok _ => Option.none

/-- The `date` entries of a historical response's bar list, in order. -/
def histDates (resp : ProviderResponse) : List String :=
  match resp.data with
  | .dict kvs =>
    match dictFind kvs "data" with
    | some (.list pts) =>
      pts.filterMap fun p =>
        match p with
        | .dict kv2 =>
          match dictFind kv2 "date" with
          | some (.str d) => some d
          | _ => Option.none
        | _ => Option.none
    | _ => []
  | _ => []

/-!
Concrete fixtures exercised by the witnesses and counterexamples below.
-/

/-- A healthy registered provider. -/
def fmpHealthyConfig : ProviderConfig := { name := "fmp", status := .healthy }

/-- A factory owning one initialized healthy provider. -/
def oneProviderState : FactoryState :=
  { provider_configs := [("fmp", fmpHealthyConfig)], provider_instances := ["fmp"] }

/-- An adapter-level failure report: the coroutine returned normally but the
response says the upstream call failed. -/
def failureReport : ProviderResponse :=
  { success := false, data := .dict [], error := some "upstream error",
    provider := some "fmp", metadata := [("cached", .bool false)] }

/-- A healthy provider one failure short of the breaker threshold. -/
def breakerEdgeConfig : ProviderConfig :=
  { name := "fmp", status := .healthy, consecutive_failures := 4 }

/-- A raw FMP quote payload as stored in the cache. -/
def storedQuotePayload : PyVal :=
  .list [.dict [("symbol", .str "AAPL"), ("price", .int 150)]]

/-- A `_make_request` world whose cache read hits on `storedQuotePayload`. -/
def cacheHitEnv : RequestEnv :=
  { rate_allowed := true, cached := some storedQuotePayload, attempts := fun _ => .clientError }

/-- A `_make_request` world where every HTTP attempt answers 401. -/
def authFailEnv : RequestEnv :=
  { rate_allowed := true, cached := Option.none, attempts := fun _ => .authFailed }

/-- One OHLCV bar of an FMP historical payload. -/
def histBar (d : String) : PyVal :=
  .dict [("date", .str d), ("open", .int 1), ("high", .int 2), ("low", .int 1),
         ("close", .int 2), ("volume", .int 10)]

/-- An FMP historical payload whose bars arrive newest-first. -/
def unsortedHistPayload : PyVal :=
  .dict [("historical", .list [histBar "2024-01-02", histBar "2024-01-01"])]

/-- A `_make_request` world serving `unsortedHistPayload` on the first try. -/
def unsortedHistEnv : RequestEnv :=
  { rate_allowed := true, cached := Option.none, attempts := fun _ => .ok unsortedHistPayload }

/-- Lexicographic `≤` on character lists. -/
def charListLe : List Char → List Char → Bool
  | [], _ => true
  | _ :: _, [] => false
  | a :: as, b :: bs => if a == b then charListLe as bs else decide (a.toNat < b.toNat)

/-- Whether a list of ISO dates is ascending (lexicographic order on
`YYYY-MM-DD` strings coincides with chronological order). -/
def stringsAscending : List String → Bool
  | [] => true
  | [_] => true
  | a :: b :: t => charListLe a.toList b.toList && stringsAscending (b :: t)

/-!
## Shared lemmas
-/

/-- The level-determination loop of `_calculate_data_quality` computes
exactly the spec's "highest level whose threshold is ≤ the score". -/
theorem quality_level_of_eq_spec (q : ℚ) : quality_level_of q = spec_quality_level q := by
  unfold quality_level_of spec_quality_level quality_thresholds_desc
  by_cases h95 : (95 : ℚ) ≤ q
  · simp [List.find?, h95]
  · by_cases h85 : (85 : ℚ) ≤ q
    · simp [List.find?, h95, h85]
    · by_cases h70 : (70 : ℚ) ≤ q
      · simp [List.find?, h95, h85, h70]
      · by_cases h50 : (50 : ℚ) ≤ q
        · simp [List.find?, h95, h85, h70, h50]
        · by_cases h0 : (0 : ℚ) ≤ q
          · simp [List.find?, h95, h85, h70, h50, h0]
          · simp [List.find?, h95, h85, h70, h50, h0]

/-- The keyword set `get_market_overview` passes to `ProviderResponse`
contains `cached`, which `__init__` does not accept, so construction
raises whatever the overview payload was. -/
theorem initKw_cached_errors (ov ts : PyVal) :
    providerResponseInitKw
      [("success", PyVal.bool true), ("data", ov), ("provider", PyVal.str "fmp"),
       ("timestamp", ts), ("cached", PyVal.bool false), ("error", PyVal.none)] =
      Except.error "TypeError: init got an unexpected keyword argument cached" := rfl

/-- The availability sweep of provider selection does not touch the set of
initialized adapter instances. -/
theorem sel_instances (s : FactoryState) (n : ℚ) :
    (select_provider_by_priority s n).2.provider_instances = s.provider_instances := by
  unfold select_provider_by_priority get_available_providers
  dsimp only
  split <;> rfl

/-- The availability sweep of provider selection does not touch the global
failover counter. -/
theorem sel_failover_count (s : FactoryState) (n : ℚ) :
    (select_provider_by_priority s n).2.failover_count = s.failover_count := by
  unfold select_provider_by_priority get_available_providers
  dsimp only
  split <;> rfl

/-!
## The claims
-/

/-- C1: the claim says at most `burst_limit` calls within any 10-second
window may return true; but `zadd` keys members by the second-granular
timestamp string, so three `is_allowed` calls for `alpha_vantage`
(burst limit 2) in the same second collapse to one sorted-set member and
all three are admitted. -/
theorem C1_same_second_calls_exceed_burst_limit :
    alphaVantageLimits.burst_limit = 2 ∧
    is_allowed_trace alphaVantageLimits ⟨[], [], [], []⟩ [100, 100, 100] =
      [true, true, true] := by
  decide

/-- C2: once `record_failure` pushes `consecutive_failures` to the
threshold on a closed breaker, the breaker records the failure instant; at
every instant less than `circuit_breaker_timeout` seconds later the breaker
reads open and the provider is absent from `_get_available_providers`; once
the timeout has elapsed a breaker read reports closed and zeroes
`consecutive_failures`. -/
theorem C2_circuit_breaker_exclusion (c : ProviderConfig) (tf : ℚ)
    (hclosed : c.circuit_breaker_opened_at = Option.none)
    (hth : c.circuit_breaker_threshold ≤ c.consecutive_failures + 1) :
    ((c.record_failure tf).circuit_breaker_opened_at = some tf) ∧
    (∀ t : ℚ, tf ≤ t → t < tf + (c.circuit_breaker_timeout : ℚ) →
      ((c.record_failure tf).is_circuit_breaker_open t).1 = true ∧
      ∀ st : FactoryState,
        (∀ q ∈ st.provider_configs, q.1 = c.name → q.2 = c.record_failure tf) →
        c.name ∉ (get_available_providers st t).1) ∧
    (∀ t : ℚ, tf + (c.circuit_breaker_timeout : ℚ) ≤ t →
      ((c.record_failure tf).is_circuit_breaker_open t).1 = false ∧
      ((c.record_failure tf).is_circuit_breaker_open t).2.consecutive_failures = 0) := by
  have hopen : (c.record_failure tf).circuit_breaker_opened_at = some tf := by
    unfold ProviderConfig.record_failure
    rw [if_pos]
    exact ⟨hth, hclosed⟩
  have htime : (c.record_failure tf).circuit_breaker_timeout = c.circuit_breaker_timeout := by
    unfold ProviderConfig.record_failure
    dsimp only
    split <;> rfl
  have hopenb : ∀ t : ℚ, tf ≤ t → t < tf + (c.circuit_breaker_timeout : ℚ) →
      ((c.record_failure tf).is_circuit_breaker_open t).1 = true := by
    intro t h1 h2
    unfold ProviderConfig.is_circuit_breaker_open
    rw [hopen]
    dsimp only
    rw [htime, if_neg (by intro hc; linarith)]
  refine ⟨hopen, fun t h1 h2 => ⟨hopenb t h1 h2, ?_⟩, fun t h3 => ?_⟩
  · intro st hst hmem
    unfold get_available_providers at hmem
    simp only [List.mem_filterMap, List.mem_map] at hmem
    obtain ⟨bp, ⟨q, hq, hstep⟩, hif⟩ := hmem
    by_cases hb : bp.1
    · rw [if_pos hb] at hif
      injection hif with hname
      unfold availableStep at hstep
      split at hstep
      · have hq2 : q.2 = c.record_failure tf := by
          apply hst q hq
          have hn : bp.2.1 = q.1 := by rw [← hstep]
          rw [← hname, hn]
        rw [hq2] at hstep
        have hb' : bp.1 = (!((c.record_failure tf).is_circuit_breaker_open t).1 &&
            st.provider_instances.contains q.1) := by rw [← hstep]
        rw [hopenb t h1 h2] at hb'
        simp at hb'
        rw [hb'] at hb
        exact absurd hb (by simp)
      · have hb' : bp.1 = false := by rw [← hstep]
        rw [hb'] at hb
        exact absurd hb (by simp)
    · rw [if_neg hb] at hif
      exact Option.noConfusion hif
  · constructor
    · unfold ProviderConfig.is_circuit_breaker_open
      rw [hopen]
      dsimp only
      rw [htime, if_pos (by linarith)]
    · unfold ProviderConfig.is_circuit_breaker_open
      rw [hopen]
      dsimp only
      rw [htime, if_pos (by linarith)]

/-- C2 witness: the fifth failure (threshold 5, timeout 60) at instant 1000
opens the breaker; at 1030 the provider is excluded; at 1060 the breaker
reads closed with a zeroed failure streak. -/
theorem C2_circuit_breaker_exclusion_witness :
    (breakerEdgeConfig.record_failure 1000).circuit_breaker_opened_at = some 1000 ∧
    ((breakerEdgeConfig.record_failure 1000).is_circuit_breaker_open 1030).1 = true ∧
    "fmp" ∉ (get_available_providers
      { provider_configs := [("fmp", breakerEdgeConfig.record_failure 1000)]
        provider_instances := ["fmp"] } 1030).1 ∧
    ((breakerEdgeConfig.record_failure 1000).is_circuit_breaker_open 1060).1 = false ∧
    ((breakerEdgeConfig.record_failure 1000).is_circuit_breaker_open
      1060).2.consecutive_failures = 0 := by
  have h := C2_circuit_breaker_exclusion breakerEdgeConfig 1000 rfl
    (by norm_num [breakerEdgeConfig])
  have h2 := h.2.1 1030 (by norm_num) (by norm_num [breakerEdgeConfig])
  have h3 := h.2.2 1060 (by norm_num [breakerEdgeConfig])
  exact ⟨h.1, h2.1,
    h2.2 { provider_configs := [("fmp", breakerEdgeConfig.record_failure 1000)]
           provider_instances := ["fmp"] }
      (by intro q hq hn; simp only [List.mem_singleton] at hq; rw [hq]),
    h3.1, h3.2⟩

/-- C3: when the selected provider's coroutine returns a response without
raising, `get_with_failover` records a success on that provider (counters
bumped, failure streak zeroed, EMA updated), remembers it as last used, and
returns the response at once — whatever its `success` flag says; no other
provider is invoked and the failover counter is untouched. -/
theorem C3_non_raising_response_returned_without_failover
    (st : FactoryState) (invoke : String → AttemptOutcome) (now rt : ℚ)
    (p : String) (r : ProviderResponse)
    (hsel : (select_provider_by_priority st now).1 = some p)
    (hinst : st.provider_instances.contains p = true)
    (hinv : invoke p = .ok r rt) :
    (get_with_failover select_provider_by_priority invoke now Option.none st).result = .ok r ∧
    (get_with_failover select_provider_by_priority invoke now Option.none st).invoked = [p] ∧
    (get_with_failover select_provider_by_priority invoke now Option.none st).state =
      { (updateConfig (select_provider_by_priority st now).2 p
            fun c => c.record_success (some rt)) with
          request_count := (select_provider_by_priority st now).2.request_count + 1
          last_used_provider := some p } ∧
    (get_with_failover select_provider_by_priority invoke now Option.none st).state.failover_count
      = st.failover_count := by
  have hpair : select_provider_by_priority st now =
      (some p, (select_provider_by_priority st now).2) := by
    rw [← hsel]
  unfold get_with_failover gwf_loop
  rw [hpair]
  dsimp only
  rw [show (([] : List String).contains p) = false from rfl]
  simp only [Bool.false_eq_true, if_false]
  rw [sel_instances st now, hinst]
  simp only [Bool.not_true, Bool.false_eq_true, if_false]
  rw [hinv]
  dsimp only
  refine ⟨rfl, rfl, rfl, ?_⟩
  exact sel_failover_count st now

/-- C3 witness: a factory with one healthy provider whose adapter returns
`failureReport` (a `success=False` response, as FMP's exception handlers
do) still returns that response from the first attempt with no failover. -/
theorem C3_non_raising_response_witness :
    (get_with_failover select_provider_by_priority (fun _ => .ok failureReport 2) 5
      Option.none oneProviderState).result = .ok failureReport ∧
    (get_with_failover select_provider_by_priority (fun _ => .ok failureReport 2) 5
      Option.none oneProviderState).invoked = ["fmp"] ∧
    (get_with_failover select_provider_by_priority (fun _ => .ok failureReport 2) 5
      Option.none oneProviderState).state.failover_count = 0 ∧
    failureReport.success = false := by
  have h := C3_non_raising_response_returned_without_failover oneProviderState
    (fun _ => .ok failureReport 2) 5 2 "fmp" failureReport rfl rfl rfl
  exact ⟨h.1, h.2.1, h.2.2.2, rfl⟩

/-- C4: the claim says a cache-served quote carries `cache_hit=true` and a
freshness score below 100; but `get_stock_quote` stamps
`metadata = ("cached": False)` unconditionally, so the orchestrator sees
`cache_hit=false` and scores freshness 100 even though `_make_request`
answered from the cache without issuing any HTTP request. -/
theorem C4_cache_hit_unmarked :
    (fmp_make_request cacheHitEnv "/quote").http_attempts = 0 ∧
    (fmp_get_stock_quote cacheHitEnv "2025-01-01T00:00:00").success = true ∧
    pyTruthy (dictGetD (fmp_get_stock_quote cacheHitEnv "2025-01-01T00:00:00").metadata
      "cached" (.bool true)) = false ∧
    (ms_get_quote [("fmp", fmpHealthyConfig)] (fun v => .ok v) "AAPL"
      (.ok (fmp_get_stock_quote cacheHitEnv "2025-01-01T00:00:00")) (1/10) (1/10)).success
      = true ∧
    (ms_get_quote [("fmp", fmpHealthyConfig)] (fun v => .ok v) "AAPL"
      (.ok (fmp_get_stock_quote cacheHitEnv "2025-01-01T00:00:00")) (1/10)
      (1/10)).provenance.cache_hit = false ∧
    (ms_get_quote [("fmp", fmpHealthyConfig)] (fun v => .ok v) "AAPL"
      (.ok (fmp_get_stock_quote cacheHitEnv "2025-01-01T00:00:00")) (1/10)
      (1/10)).data_quality.freshness_score = 100 := by
  decide

/-- C5 (amended): `overall_score` is the exact un-rounded weighted sum
`0.3*completeness + 0.25*freshness + 0.25*accuracy + 0.2*consistency` —
no `round(..., 6)` is applied — and the declared level is the highest
threshold at or below the overall score. -/
theorem C5_overall_unrounded_weighted_sum (data : PyVal) (provider : Option String)
    (request_time : ℚ) (cache_hit : Bool) (m : DataQualityMetrics)
    (h : calculate_data_quality data provider request_time cache_hit = .ok m) :
    m.overall_score = m.completeness_score * 0.3 + m.freshness_score * 0.25 +
        m.accuracy_score * 0.25 + m.consistency_score * 0.2 ∧
    m.quality_level = spec_quality_level m.overall_score := by
  unfold calculate_data_quality at h
  dsimp only at h
  cases hf : count_present_required data
      (if pyReprContains data "price" then ["symbol", "price"] else ["symbol"]) with
  | error e =>
    rw [hf] at h
    simp [bind, Except.bind] at h
  | ok n =>
    rw [hf] at h
    simp only [bind, Except.bind, pure, Except.pure, Except.ok.injEq] at h
    subst h
    exact ⟨rfl, quality_level_of_eq_spec _⟩

/-- C5 counterexample: on a cache hit with request time `1e-7` s the code's
overall score is `96.74999975`, but rounding the weighted sum of its own
sub-scores to six decimals gives `96.75`; the claimed
`overall = round(..., 6)` is false. -/
theorem C5_overall_round_counterexample :
    calculate_data_quality (PyVal.dict [("symbol", PyVal.str "AAPL")]) (some "fmp")
        (1/10000000) true =
      Except.ok { completeness_score := 100, freshness_score := 99999999/1000000,
                  accuracy_score := 95, consistency_score := 90,
                  overall_score := 96.74999975, quality_level := .excellent } ∧
    roundTo6 (100 * 0.3 + (99999999/1000000 : ℚ) * 0.25 + 95 * 0.25 + 90 * 0.2) = 96.75 ∧
    (96.74999975 : ℚ) ≠ 96.75 := by
  refine ⟨?_, ?_, by norm_num⟩
  · unfold calculate_data_quality
    rw [show pyReprContains (PyVal.dict [("symbol", PyVal.str "AAPL")]) "price" = false from
      by decide]
    simp only [Bool.false_eq_true, if_false]
    rw [show count_present_required (PyVal.dict [("symbol", PyVal.str "AAPL")]) ["symbol"] =
        Except.ok 1 from rfl]
    simp only [bind, Except.bind, pure, Except.pure, provider_scores_get, Except.ok.injEq,
      DataQualityMetrics.mk.injEq]
    refine ⟨by norm_num, by norm_num [max_def], by norm_num, by norm_num,
      by norm_num [max_def], ?_⟩
    rw [quality_level_of_eq_spec]
    unfold spec_quality_level
    rw [if_pos (by norm_num [max_def])]
  · unfold roundTo6
    norm_num [round_eq]

/-- C5 witness: on a fresh fetch from FMP with both required fields
present, the metrics are (100, 100, 95, 90) with overall `96.75` — the
exact weighted sum — and level `excellent`. -/
theorem C5_overall_unrounded_weighted_sum_witness :
    calculate_data_quality (PyVal.dict [("symbol", PyVal.str "AAPL")]) (some "fmp") 0 false =
      Except.ok { completeness_score := 100, freshness_score := 100, accuracy_score := 95,
                  consistency_score := 90, overall_score := 96.75,
                  quality_level := DataQuality.excellent } ∧
    (96.75 : ℚ) = 100 * 0.3 + 100 * 0.25 + 95 * 0.25 + 90 * 0.2 ∧
    DataQuality.excellent = spec_quality_level 96.75 := by
  have hcal : calculate_data_quality (PyVal.dict [("symbol", PyVal.str "AAPL")])
      (some "fmp") 0 false =
      Except.ok { completeness_score := 100, freshness_score := 100, accuracy_score := 95,
                  consistency_score := 90, overall_score := 96.75,
                  quality_level := DataQuality.excellent } := by
    unfold calculate_data_quality
    rw [show pyReprContains (PyVal.dict [("symbol", PyVal.str "AAPL")]) "price" = false from
      by decide]
    simp only [Bool.false_eq_true, if_false]
    rw [show count_present_required (PyVal.dict [("symbol", PyVal.str "AAPL")]) ["symbol"] =
        Except.ok 1 from rfl]
    simp only [bind, Except.bind, pure, Except.pure, provider_scores_get, Except.ok.injEq,
      DataQualityMetrics.mk.injEq]
    refine ⟨by norm_num, by norm_num, by norm_num, by norm_num, by norm_num, ?_⟩
    rw [quality_level_of_eq_spec]
    unfold spec_quality_level
    rw [if_pos (by norm_num)]
  have h := C5_overall_unrounded_weighted_sum _ _ _ _ _ hcal
  exact ⟨hcal, h.1, h.2⟩

/-- C6: `get_quote` is total (every raise inside the `try` lands in the
failure envelope); a raised factory call or an unsuccessful provider
response yields `success=false` with the provider's error carried over; any
failure envelope has all four sub-scores and the overall score at 0 with
level `unreliable` and a non-null error; every envelope snapshots the
providers' health. -/
theorem C6_get_quote_failure_envelope (configs : List (String × ProviderConfig))
    (conv : PyVal → Except String PyVal) (symbol : String)
    (fres : Except String ProviderResponse) (t1 t2 : ℚ)
    (herr : ∀ r, fres = Except.ok r → r.success = false → r.error ≠ Option.none) :
    ((ms_get_quote configs conv symbol fres t1 t2).success = false →
      (ms_get_quote configs conv symbol fres t1 t2).data_quality = zeroed_quality ∧
      (ms_get_quote configs conv symbol fres t1 t2).error ≠ Option.none) ∧
    (∀ e, fres = .error e →
      (ms_get_quote configs conv symbol fres t1 t2).success = false ∧
      (ms_get_quote configs conv symbol fres t1 t2).error = some e) ∧
    (∀ r, fres = .ok r → r.success = false →
      (ms_get_quote configs conv symbol fres t1 t2).success = false ∧
      (ms_get_quote configs conv symbol fres t1 t2).error = r.error) ∧
    (ms_get_quote configs conv symbol fres t1 t2).provenance.provider_health =
      configs.map (fun q => (q.1, q.2.status.toValue)) := by
  cases fres with
  | error e =>
    refine ⟨fun _ => ⟨rfl, by simp [ms_get_quote, quote_failure_envelope]⟩, ?_, ?_, rfl⟩
    · intro e' he
      injection he with he'
      subst he'
      exact ⟨rfl, rfl⟩
    · intro r hr
      exact absurd hr (by simp)
  | ok pr =>
    have hvac2 : ∀ (P : Prop) (e : String),
        (Except.ok pr : Except String ProviderResponse) = .error e → P := by
      intro P e he
      exact Except.noConfusion he
    by_cases hs : pr.success = true
    · have hvac3 : ∀ (P : Prop) r, (Except.ok pr : Except String ProviderResponse) = .ok r →
          r.success = false → P := by
        intro P r hr hsr
        injection hr with hr'
        subst hr'
        rw [hs] at hsr
        exact Bool.noConfusion hsr
      unfold ms_get_quote
      dsimp only
      simp only [hs, if_true]
      cases hq : calculate_data_quality pr.data pr.provider t1
          (pyTruthy (dictGetD pr.metadata "cached" (PyVal.bool false))) with
      | error e =>
        exact ⟨fun _ => ⟨rfl, by simp [quote_failure_envelope]⟩,
          fun e' he => hvac2 _ e' he, fun r hr hsr => hvac3 _ r hr hsr, rfl⟩
      | ok dq =>
        cases ha : detect_anomalies true pr.data Option.none with
        | error e =>
          exact ⟨fun _ => ⟨rfl, by simp [quote_failure_envelope]⟩,
            fun e' he => hvac2 _ e' he, fun r hr hsr => hvac3 _ r hr hsr, rfl⟩
        | ok anom =>
          cases hc : conv pr.data with
          | error e =>
            exact ⟨fun _ => ⟨rfl, by simp [quote_failure_envelope]⟩,
              fun e' he => hvac2 _ e' he, fun r hr hsr => hvac3 _ r hr hsr, rfl⟩
          | ok qd =>
            exact ⟨fun h => absurd h (by simp), fun e' he => hvac2 _ e' he,
              fun r hr hsr => hvac3 _ r hr hsr, rfl⟩
    · have hsf : pr.success = false := by
        cases hb : pr.success
        · rfl
        · exact absurd hb hs
      have hq : ms_get_quote configs conv symbol (Except.ok pr) t1 t2 =
          { success := false, symbol := symbol, data := Option.none,
            data_quality := zeroed_quality, anomaly_detection := Option.none,
            provenance := create_data_provenance configs (some "unknown") t1 false
              Option.none [],
            error := pr.error } := by
        unfold ms_get_quote
        dsimp only
        simp only [hsf, Bool.false_eq_true, if_false]
      rw [hq]
      refine ⟨fun _ => ⟨rfl, herr pr rfl hsf⟩, fun e' he => hvac2 _ e' he, ?_, rfl⟩
      intro r hr hsr
      injection hr with hr'
      subst hr'
      exact ⟨rfl, rfl⟩

/-- C6 witness: a provider failure response surfaces as a well-formed
envelope with `success=false`, the carried error, and zeroed quality. -/
theorem C6_get_quote_failure_envelope_witness :
    (ms_get_quote [] (fun v => Except.ok v) "AAPL" (Except.ok failureReport) 0 0).success
      = false ∧
    (ms_get_quote [] (fun v => Except.ok v) "AAPL" (Except.ok failureReport) 0 0).error
      = some "upstream error" ∧
    (ms_get_quote [] (fun v => Except.ok v) "AAPL" (Except.ok failureReport) 0 0).data_quality
      = zeroed_quality := by
  have herr : ∀ r, (Except.ok failureReport : Except String ProviderResponse) = Except.ok r →
      r.success = false → r.error ≠ Option.none := by
    intro r hr _
    injection hr with hr'
    subst hr'
    simp [failureReport]
  have h := C6_get_quote_failure_envelope [] (fun v => Except.ok v) "AAPL"
    (Except.ok failureReport) 0 0 herr
  have h3 := h.2.2.1 failureReport rfl rfl
  exact ⟨h3.1, h3.2, (h.1 h3.1).1⟩

/-- C7: the claim says the adapter sorts bars ascending and the
orchestrator rejects unsorted series before caching; but
`get_historical_data` keeps the provider's newest-first order (no sort
anywhere), reports `success=True`, and the raw payload was already written
to the cache inside `_make_request` — before the orchestrator could see
it. -/
theorem C7_historical_bars_not_sorted :
    (fmp_get_historical_data unsortedHistEnv "ts" "AAPL" "1y" "1d").success = true ∧
    histDates (fmp_get_historical_data unsortedHistEnv "ts" "AAPL" "1y" "1d") =
      ["2024-01-02", "2024-01-01"] ∧
    stringsAscending (histDates (fmp_get_historical_data unsortedHistEnv "ts" "AAPL" "1y" "1d"))
      = false ∧
    (fmp_make_request unsortedHistEnv "/historical-price-full").cache_writes.length = 1 := by
  decide

/-- C8: the claim says a 401 fails the request on that attempt with no
further retries; but the `raise` in the 401 arm is caught by the enclosing
generic `except Exception`, so a permanently-401 upstream is retried with
backoff sleeps 1, 2 and 4 seconds, four HTTP attempts in all, and the
final error is the generic after-4-attempts message, not the
authentication one. -/
theorem C8_auth_failure_is_retried :
    (fmp_make_request authFailEnv "/quote").http_attempts = 4 ∧
    (fmp_make_request authFailEnv "/quote").sleeps = [1, 2, 4] ∧
    resultErrorMsg (fmp_make_request authFailEnv "/quote").result =
      some "FMP API request failed after 4 attempts" := by
  decide

/-- C9: every `get_market_overview` call returns `success=False`: when
`_make_request` raises the handler returns the failure response, and on the
would-be success path the `ProviderResponse(..., cached=False, ...)`
construction raises `TypeError` (no such keyword parameter), which the same
handler converts into the failure response. -/
theorem C9_market_overview_always_fails (env : RequestEnv) (nowIso : String) :
    (fmp_get_market_overview env nowIso).success = false := by
  unfold fmp_get_market_overview
  cases h : (fmp_make_request env "/quote/SPY,QQQ,DIA,BTC-USD,ETH-USD").result with
  | error e => rfl
  | ok data =>
    cases data with
    | none => rfl
    | bool b => rfl
    | int n => rfl
    | float q => rfl
    | str s =>
      cases hcl : fmp_overview_classify nowIso
          (List.map (fun c => PyVal.str (String.singleton c)) s.data) with
      | error e => simp [hcl, fmpFailureResp, bind, Except.bind]
      | ok pr => simp [hcl, initKw_cached_errors, fmpFailureResp, bind, Except.bind]
    | list xs =>
      cases hcl : fmp_overview_classify nowIso xs with
      | error e => simp [hcl, fmpFailureResp, bind, Except.bind]
      | ok pr => simp [hcl, initKw_cached_errors, fmpFailureResp, bind, Except.bind]
    | dict kvs =>
      cases hcl : fmp_overview_classify nowIso (List.map (fun kv => PyVal.str kv.1) kvs) with
      | error e => simp [hcl, fmpFailureResp, bind, Except.bind]
      | ok pr => simp [hcl, initKw_cached_errors, fmpFailureResp, bind, Except.bind]

/-- C10: the inherited `check_health` reports healthy whenever the probe
coroutine returns without raising, never reading the response's `success`
flag; `FMPProvider.get_stock_quote` converts every exception into a
returned failure response, so the factory's health check marks the
provider healthy — here even for a world where every upstream attempt is a
hard failure and the probe response itself says `success=false`. -/
theorem C10_health_check_ignores_success_flag :
    (∀ (env : RequestEnv) (nowIso : String) (rt now : ℚ) (c : ProviderConfig),
      (check_health (Except.ok (fmp_get_stock_quote env nowIso)) rt).is_healthy = true ∧
      (health_check_provider_update
        (check_health (Except.ok (fmp_get_stock_quote env nowIso)) rt) now c).status =
          ProviderStatus.healthy) ∧
    (fmp_get_stock_quote authFailEnv "ts").success = false := by
  refine ⟨fun env nowIso rt now c => ⟨rfl, rfl⟩, ?_⟩
  decide

end Archelyst
